import Mathlib

/-!
Verification of the composite health aggregation engine of the
mini-shop-integration monitoring stack.

The definitions below are a shallow embedding of the Python sources:

* `quick_status_label`, `get_quick_status` — `MonitoringBridge.get_quick_status`
  (`diagnostics/monitoring_bridge.py`): the status string computed from the
  number of reachable services (out of the fixed total of 4).
* `health_score`, `health_level`, `analyze_system_health` —
  `MasterAnalyzer.analyze_system_health` (`diagnostics/master_analyzer.py`).
* `status_weight`, `get_network_status`, `calculate_overall_status`,
  `generate_recommendations`, `get_static_insights`, `master_summary` — the
  aggregator of `diagnostics/master_analyzer.py`.
* `py_strip`, `split_on_nl`, `contains_sub`, `dot_star_seg`, `match_pat`,
  `pattern_table`, `analyze_with_patterns` — `LogAnalyzer.analyze_with_patterns`
  (`ai-analysis/smart_analyzer.py`).  Log text is modelled as `List Char`;
  the regular expressions of the pattern table are either plain literals or of
  the shape `a.*b`, where `.` does not match a newline, which is captured by
  `Pat.lit` and `Pat.seq`.  `datetime.now()` is an explicit `now` parameter.
* `analyze_logs_patterns` — `MasterAnalyzer.analyze_logs_patterns`: the
  outcome of the I/O fetch from Loki is an explicit `LogFetch` value
  (successful fetch, error dictionary, or an escaped exception).
* `mean`, `last_n`, `py_max`, `analyze_trends` —
  `InsightGenerator.analyze_trends` (`ai-reporter/insight_generator.py`),
  with floats idealised as rationals and the produced trend messages as the
  `Trend` enumeration.
* `qdiv`, `network_summary_availability` — the summary block of
  `NetworkAnalyzer.analyze_network_health`
  (`diagnostics/network_analyzer.py`); probe outcomes are oracle functions
  and Python's raising integer division is the `Option`-valued `qdiv`.
-/

/-! ## Quick status (monitoring_bridge.get_quick_status) -/

/-- Status string of `get_quick_status`:
`'🟢 OK' if services_ok == 4 else '🟡 PARTIAL' if services_ok >= 2 else '🔴 CRITICAL'`. -/
def quick_status_label (services_ok : Nat) : String :=
  if services_ok = 4 then "🟢 OK"
  else if 2 ≤ services_ok then "🟡 PARTIAL"
  else "🔴 CRITICAL"

/-- The record returned by `get_quick_status` (the fields the analyzers read). -/
structure QuickStatus where
  services_total : Nat
  services_available : Nat
  containers_running : Nat
  containers_expected : Nat
  status : String
deriving DecidableEq

/-- `MonitoringBridge.get_quick_status`, as a function of the number of
reachable services and the counted containers (both probe outcomes).
`total` and `expected` are the hard-coded constant 4. -/
def get_quick_status (services_ok container_count : Nat) : QuickStatus :=
  { services_total := 4
    services_available := services_ok
    containers_running := container_count
    containers_expected := 4
    status := quick_status_label services_ok }

/-- Spec-side severity rank of the quick-status strings (0 best, 2 worst),
used to state monotonicity of the severity in the number of reachable
services. -/
def severity_rank (s : String) : Nat :=
  if s = "🟢 OK" then 0 else if s = "🟡 PARTIAL" then 1 else 2

/-! ## System health (master_analyzer.analyze_system_health) -/

/-- Health score penalties of `analyze_system_health`. -/
def health_score (q : QuickStatus) : Int :=
  100
  - (if q.status ≠ "🟢 OK" then 30 else 0)
  - (if q.services_available < q.services_total then
       20 * ((q.services_total : Int) - (q.services_available : Int)) else 0)
  - (if q.containers_running < q.containers_expected then 15 else 0)

/-- Health level thresholds of `analyze_system_health`. -/
def health_level (score : Int) : String :=
  if 90 ≤ score then "EXCELLENT"
  else if 70 ≤ score then "GOOD"
  else if 50 ≤ score then "WARNING"
  else "CRITICAL"

/-- The part of the health analysis record the aggregator reads. -/
structure HealthData where
  health_score : Int
  health_level : String
deriving DecidableEq

/-- `MasterAnalyzer.analyze_system_health`, reduced to the fields the
aggregator consumes. -/
def analyze_system_health (services_ok container_count : Nat) : HealthData :=
  { health_score := health_score (get_quick_status services_ok container_count)
    health_level := health_level (health_score (get_quick_status services_ok container_count)) }

/-! ## Analyzer output records consumed by the aggregator -/

/-- The part of the performance analysis the aggregator reads. -/
structure PerfData where
  performance_level : String
deriving DecidableEq

/-- The part of the log analysis record the aggregator reads.  `alert_level`
is an `Option` because the aggregator reads it with `dict.get`. -/
structure LogsData where
  alert_level : Option String
  entries_analyzed : Nat
  detected_patterns : List String
deriving DecidableEq

/-- The part of the network analysis the aggregator reads: whether the
analysis ended in an error record, and the summary HTTP availability. -/
structure NetworkData where
  has_error : Bool
  http_availability : ℚ
deriving DecidableEq

/-- The insight engine's output (AI-generated or static). -/
structure InsightData where
  ai_available : Bool
  insights : String
deriving DecidableEq

/-! ## Aggregator (master_analyzer) -/

/-- `MasterAnalyzer._get_network_status`. -/
def get_network_status (n : NetworkData) : String :=
  if n.has_error then "UNKNOWN"
  else if 95 ≤ n.http_availability then "EXCELLENT"
  else if 80 ≤ n.http_availability then "GOOD"
  else if 60 ≤ n.http_availability then "WARNING"
  else "CRITICAL"

/-- The `status_weights` dictionary lookup of
`MasterAnalyzer._calculate_overall_status`, with default `d`. -/
def status_weight (s : String) (d : Nat) : Nat :=
  if s = "CRITICAL" then 4
  else if s = "ERROR" then 3
  else if s = "WARNING" then 2
  else if s = "GOOD" then 1
  else if s = "EXCELLENT" then 0
  else if s = "UNKNOWN" then 1
  else d

/-- `MasterAnalyzer._calculate_overall_status`. -/
def calculate_overall_status (h : HealthData) (p : PerfData) (l : LogsData)
    (n : NetworkData) : String :=
  let health_weight := status_weight h.health_level 2
  let perf_weight := if p.performance_level = "SLOW" then 2 else 0
  let logs_weight := status_weight (l.alert_level.getD ("INFO")) 1
  let network_weight := status_weight (get_network_status n) 1
  let total_weight := health_weight + perf_weight + logs_weight + network_weight
  if 6 ≤ total_weight then "🔴 CRITICAL"
  else if 4 ≤ total_weight then "🟡 WARNING"
  else "🟢 NORMAL"

/-- `MasterAnalyzer._generate_recommendations`. -/
def generate_recommendations (h : HealthData) (p : PerfData) (l : LogsData) :
    List String :=
  (if h.health_score = 100 then ["🎯 Maintain current configuration - system perfect"]
   else if 90 ≤ h.health_score then ["📈 Consider business metrics monitoring for proactive management"]
   else if 70 ≤ h.health_score then ["🔧 Conduct preventive system inspection"]
   else [])
  ++ (if p.performance_level = "FAST" then ["⚡ Performance optimal - maintain current settings"]
      else if p.performance_level = "SLOW" then ["🐌 Optimize database settings and caching"]
      else [])
  ++ (if 0 < l.entries_analyzed then
        (if l.alert_level.getD ("INFO") = "ERROR" then ["🚨 Urgently investigate errors in logs"]
         else if l.alert_level.getD ("INFO") = "WARNING" then ["⚠️ Attention: warnings present in logs"]
         else ["📝 Logs clean - excellent system operation"])
        ++ (if 50 < l.entries_analyzed then ["📊 Consider log rotation to save space"] else [])
      else ["🔧 Configure Loki for application log collection"])
  ++ (if l.detected_patterns ≠ [] then
        (if ("database_errors") ∈ l.detected_patterns then ["🗄️ Check database connections"] else [])
        ++ (if ("performance_issues") ∈ l.detected_patterns then ["⚡ Analyze slow queries"] else [])
      else [])
  ++ (if h.health_score = 100 ∧ p.performance_level = "FAST" ∧
         (l.alert_level = some ("INFO") ∨ l.alert_level = none) ∧ 0 < l.entries_analyzed then
        ["🏆 System operating perfectly! Recommend documenting configuration"]
      else [])

/-- Python's `sep.join`, used for the static insight text. -/
def join_sep (sep : String) : List String → String
  | [] => ""
  | [a] => a
  | a :: b :: rest => a ++ sep ++ join_sep sep (b :: rest)

/-- `MasterAnalyzer._get_static_insights`: the list of insight lines built
from the health level, performance level, number of analyzed log entries and
detected pattern names. -/
def get_static_insights (health_lv performance_lv : String) (entries_analyzed : Nat)
    (detected_patterns : List String) : List String :=
  (if health_lv = "EXCELLENT" then
     ["✅ System in excellent condition: all services available, containers running",
      "📊 Consider configuring auto-scaling to maintain performance"]
   else if health_lv = "GOOD" then
     ["⚠️ System stable, but recommend checking logs for hidden issues",
      "🔧 Consider optimizing resource consumption"]
   else
     ["🚨 Immediate attention required! Critical system issues",
      "📋 Check Docker containers and service configurations"])
  ++ (if performance_lv = "FAST" then
        ["⚡ Performance optimal, response time normal"]
      else if performance_lv = "SLOW" then
        ["🐌 Performance degraded, recommend code and configuration optimization",
         "💾 Check memory and CPU usage"]
      else [])
  ++ (if 10 < entries_analyzed then
        ["📝 System generating stable log stream (" ++ toString entries_analyzed ++ " entries)"]
      else if 0 < entries_analyzed then
        ["📝 Low log activity, system running stable"]
      else
        ["🔧 Configure log collection for complete monitoring"])
  ++ (if detected_patterns ≠ [] then
        (if ("application_errors") ∈ detected_patterns then
           ["🚨 Application errors detected - check code and dependencies"] else [])
        ++ (if ("performance_issues") ∈ detected_patterns then
              ["⚡ Performance issues identified - optimize queries"] else [])
        ++ (if ("security_issues") ∈ detected_patterns then
              ["🔒 Security issues detected - check authentication"] else [])
      else [])

/-- The `insights` string of `_get_static_insights`: the lines joined with
`' • '`. -/
def static_insights_text (health_lv performance_lv : String) (entries_analyzed : Nat)
    (detected_patterns : List String) : String :=
  join_sep (" • ") (get_static_insights health_lv performance_lv entries_analyzed detected_patterns)

/-- The summary block of `MasterAnalyzer.generate_master_report`, together
with the recommendation list and the insight text of the full report. -/
structure MasterSummary where
  health : String
  performance : String
  logs_alert : String
  network : String
  overall_status : String
  recommendations : List String
  insight_text : String
deriving DecidableEq

/-- The summary/recommendations/insight part of
`MasterAnalyzer.generate_master_report`, as a function of the four analyzer
outputs and the insight engine output. -/
def master_summary (h : HealthData) (p : PerfData) (l : LogsData) (n : NetworkData)
    (ai : InsightData) : MasterSummary :=
  { health := h.health_level
    performance := p.performance_level
    logs_alert := l.alert_level.getD ("UNKNOWN")
    network := get_network_status n
    overall_status := calculate_overall_status h p l n
    recommendations := generate_recommendations h p l
    insight_text := ai.insights }

/-! ## Log pattern analyzer (ai-analysis/smart_analyzer.py) -/

/-- Python `str.strip` whitespace test. -/
def py_is_space (c : Char) : Bool :=
  c == ' ' || c == '\t' || c == '\n' || c == '\r' || c == '\x0B' || c == '\x0C'

/-- Python `str.strip`. -/
def py_strip (l : List Char) : List Char :=
  ((l.dropWhile py_is_space).reverse.dropWhile py_is_space).reverse

/-- Python `str.split('\n')`. -/
def split_on_nl : List Char → List (List Char)
  | [] => [[]]
  | c :: cs =>
      match split_on_nl cs with
      | [] => [[c]]
      | seg :: segs => if c = '\n' then [] :: seg :: segs else (c :: seg) :: segs

/-- Python substring test `needle in hay`. -/
def contains_sub (needle hay : List Char) : Bool :=
  decide (needle <:+: hay)

/-- Case folding of the log text for `re.IGNORECASE` matching (the pattern
literals are ASCII lowercase). -/
def lower_list (l : List Char) : List Char := l.map Char.toLower

/-- The two shapes of regular expressions in the analyzer's pattern table:
a plain literal, or `a.*b` where `.` does not match a newline. -/
inductive Pat where
  | lit (s : List Char)
  | seq (a b : List Char)
deriving DecidableEq

/-- Match of `a.*b` inside a single newline-free segment: an occurrence of `a`
followed, at or after its end, by an occurrence of `b`. -/
def dot_star_seg (a b seg : List Char) : Bool :=
  seg.tails.any (fun t => a.isPrefixOf t && contains_sub b (t.drop a.length))

/-- `re.search(pattern, hay)` for the two pattern shapes: a literal matches
anywhere in the text; `a.*b` matches inside some newline-delimited segment. -/
def match_pat (hay : List Char) : Pat → Bool
  | Pat.lit s => contains_sub s hay
  | Pat.seq a b => (split_on_nl hay).any (fun seg => dot_star_seg a b seg)

/-- `LogAnalyzer.self.patterns`, in dictionary insertion order. -/
def pattern_table : List (String × List Pat) :=
  [("database_errors",
     [Pat.seq (String.toList ("connection")) (String.toList ("failed")),
      Pat.lit (String.toList ("timeout")),
      Pat.lit (String.toList ("deadlock"))]),
   ("performance_issues",
     [Pat.seq (String.toList ("high")) (String.toList ("response")),
      Pat.lit (String.toList ("slow")),
      Pat.lit (String.toList ("timeout"))]),
   ("security_issues",
     [Pat.lit (String.toList ("unauthorized")),
      Pat.lit (String.toList ("forbidden")),
      Pat.seq (String.toList ("invalid")) (String.toList ("token"))]),
   ("application_errors",
     [Pat.lit (String.toList ("exception")),
      Pat.lit (String.toList ("error")),
      Pat.lit (String.toList ("failed"))])]

/-- `logs_text.strip().split('\n')`. -/
def log_lines (text : List Char) : List (List Char) :=
  split_on_nl (py_strip text)

/-- Count of lines containing the level keyword (case-sensitive substring). -/
def count_level (kw : List Char) (text : List Char) : Nat :=
  (log_lines text).countP (fun l => contains_sub kw l)

/-- The pattern-group names for which some pattern of the group matches the
(case-folded) full text, in table order. -/
def detected_patterns_of (text : List Char) : List String :=
  (pattern_table.filter (fun g => g.2.any (match_pat (lower_list text)))).map Prod.fst

/-- Alert level of `analyze_with_patterns`. -/
def alert_level_of (text : List Char) : String :=
  if 0 < count_level (String.toList ("ERROR")) text then "ERROR"
  else if 0 < count_level (String.toList ("WARNING")) text then "WARNING"
  else "INFO"

/-- Summary string of `analyze_with_patterns`. -/
def summary_of (text : List Char) : String :=
  if 0 < count_level (String.toList ("ERROR")) text then "Critical errors detected"
  else if 0 < count_level (String.toList ("WARNING")) text then "Warnings present"
  else "All systems operating normally"

/-- The result record of `LogAnalyzer.analyze_with_patterns` (the `levels`
dictionary flattened into the three counters). -/
structure LogAnalysis where
  timestamp : String
  total_entries : Nat
  info_count : Nat
  warning_count : Nat
  error_count : Nat
  detected_patterns : List String
  alert_level : String
  summary : String
deriving DecidableEq

/-- `LogAnalyzer.analyze_with_patterns`.  `now` is the value of
`datetime.now().isoformat()` at the call. -/
def analyze_with_patterns (now : String) (text : List Char) : LogAnalysis :=
  if py_strip text = [] then
    { timestamp := now
      total_entries := 0
      info_count := 0
      warning_count := 0
      error_count := 0
      detected_patterns := []
      alert_level := "INFO"
      summary := "No logs available for analysis" }
  else
    { timestamp := now
      total_entries := (log_lines text).length
      info_count := count_level (String.toList ("INFO")) text
      warning_count := count_level (String.toList ("WARNING")) text
      error_count := count_level (String.toList ("ERROR")) text
      detected_patterns := detected_patterns_of text
      alert_level := alert_level_of text
      summary := summary_of text }

/-- The log line of the C8 scenario. -/
def err_line : List Char := String.toList ("ERROR: connection failed")

/-! ## analyze_logs_patterns (master_analyzer) -/

/-- Outcome of the log retrieval step of `analyze_logs_patterns`: a fetch
that returned data, a fetch that returned an error dictionary, or an
exception escaping the `try` block. -/
inductive LogFetch where
  | fetched (result : Except String (List (List Char)))
  | raised (msg : String)

/-- Python `'\n'.join`. -/
def join_nl : List (List Char) → List Char
  | [] => []
  | [l] => l
  | l :: l2 :: rest => l ++ '\n' :: join_nl (l2 :: rest)

/-- `MasterAnalyzer.analyze_logs_patterns`, reduced to the fields the
aggregator consumes.  `alt_entries` is the outcome of the alternative-query
retry used when the primary fetch succeeds with zero entries. -/
def analyze_logs_patterns (now : String) (f : LogFetch)
    (alt_entries : List (List Char)) : LogsData :=
  match f with
  | LogFetch.raised _ =>
      { alert_level := some ("ERROR"), entries_analyzed := 0, detected_patterns := [] }
  | LogFetch.fetched (Except.error _) =>
      { alert_level := some ("UNKNOWN"), entries_analyzed := 0, detected_patterns := [] }
  | LogFetch.fetched (Except.ok primary) =>
      let entries := if primary = [] then alt_entries else primary
      let text := join_nl (entries.take 50)
      let analysis := analyze_with_patterns now text
      { alert_level := some analysis.alert_level
        entries_analyzed := entries.length
        detected_patterns := analysis.detected_patterns }

/-! ## Trend analysis (ai-reporter/insight_generator.py) -/

/-- The trend messages `analyze_trends` can emit. -/
inductive Trend where
  | growing
  | declining
  | instability
  | high_memory (gb : ℚ)
deriving DecidableEq

/-- `statistics.mean`. -/
def mean (l : List ℚ) : ℚ := l.sum / (l.length : ℚ)

/-- Python slice `l[-n:]` for a list of length at least `n`. -/
def last_n (n : Nat) (l : List ℚ) : List ℚ := l.drop (l.length - n)

/-- Python `max` of a nonempty list (0 for the empty list, which the source
never reaches). -/
def py_max : List ℚ → ℚ
  | [] => 0
  | a :: rest => rest.foldl max a

/-- `InsightGenerator.analyze_trends`, floats idealised as rationals. -/
def analyze_trends (req err mem : List ℚ) : List Trend :=
  (if 3 ≤ req.length then
     (if mean req * (13/10 : ℚ) < mean (last_n 3 req) then [Trend.growing]
      else if mean (last_n 3 req) < mean req * (7/10 : ℚ) then [Trend.declining]
      else [])
   else [])
  ++ (if err.any (fun e => decide (e ≠ 0)) && decide ((1/10 : ℚ) < py_max err) then
        [Trend.instability]
      else [])
  ++ (if mem ≠ [] then
        (if (1/2 : ℚ) < py_max mem / ((1024 : ℚ)^3) then
           [Trend.high_memory (py_max mem / ((1024 : ℚ)^3))]
         else [])
      else [])

/-! ## Network summary (diagnostics/network_analyzer.py) -/

/-- Python division of the availability computation: raising on a zero
denominator is modelled as `none`. -/
def qdiv (a b : ℚ) : Option ℚ := if b = 0 then none else some (a / b)

/-- The hard-coded `self.target_services` list of `NetworkAnalyzer`. -/
def network_targets : List String :=
  ["http://localhost:5000", "http://localhost:9090", "http://localhost:3100",
   "http://localhost:3000", "8.8.8.8", "1.1.1.1"]

/-- The hard-coded `dns_hosts` list of `analyze_network_health`. -/
def network_dns_hosts : List String :=
  ["google.com", "github.com", "docker.com"]

/-- Python `t.startswith('http')`, the category test of
`analyze_network_health`. -/
def starts_with_http (t : String) : Bool :=
  (String.toList ("http")).isPrefixOf (String.toList t)

/-- The three availability percentages of the `summary` block of
`analyze_network_health`, for a target configuration and probe outcomes
(`ping_ok`, `http_ok`, `dns_ok` are the per-target probe results).
`none` models the `ZeroDivisionError` raised when a category is empty. -/
def network_summary_availability (targets dns_hosts : List String)
    (ping_ok http_ok dns_ok : String → Bool) : Option (ℚ × ℚ × ℚ) :=
  let ping_targets := targets.filter (fun t => !(starts_with_http t))
  let http_targets := targets.filter (fun t => starts_with_http t)
  let available_pings := (ping_targets.filter ping_ok).length
  let available_http := (http_targets.filter http_ok).length
  let resolved_dns := (dns_hosts.filter dns_ok).length
  match qdiv (available_pings : ℚ) ((ping_targets.length : ℚ)),
        qdiv (available_http : ℚ) ((http_targets.length : ℚ)),
        qdiv (resolved_dns : ℚ) ((dns_hosts.length : ℚ)) with
  | some ping_avail, some http_avail, some dns_avail =>
      some (ping_avail * 100, http_avail * 100, dns_avail * 100)
  | _, _, _ => none

/-! ## Helper lemmas -/

theorem join_sep_ne_empty (sep a : String) (l : List String) (ha : a ≠ "") :
    join_sep sep (a :: l) ≠ "" := by
  cases l with
  | nil => simpa [join_sep] using ha
  | cons b r =>
      intro hcontra
      have hdata := congrArg String.data hcontra
      simp only [join_sep, String.data_append] at hdata
      rw [List.append_eq_nil, List.append_eq_nil] at hdata
      have h1 : a.data = [] := hdata.1.1
      cases a
      simp_all

theorem get_static_insights_head (health_lv performance_lv : String)
    (entries_analyzed : Nat) (detected_patterns : List String) :
    ∃ a rest, get_static_insights health_lv performance_lv entries_analyzed detected_patterns
        = a :: rest ∧ a ≠ "" := by
  unfold get_static_insights
  split_ifs <;> exact ⟨_, _, rfl, by decide⟩

/-! ## Claim theorems -/

/-- C1: the quick-status severity is a pure function of `(available, total)`
with `total = 4`: it is the OK class exactly when all 4 services are
reachable, the PARTIAL/WARNING class exactly when at least half but not all
are reachable, and the CRITICAL class exactly when fewer than half are; and
its severity rank is monotonically non-increasing in the number of reachable
services. -/
theorem quick_status_pure_monotone (a b : Nat) :
    (a ≤ 4 →
      ((quick_status_label a = "🟢 OK" ↔ a = 4) ∧
       (quick_status_label a = "🟡 PARTIAL" ↔ 2 ≤ a ∧ a < 4) ∧
       (quick_status_label a = "🔴 CRITICAL" ↔ a < 2))) ∧
    (a ≤ b → b ≤ 4 →
      severity_rank (quick_status_label b) ≤ severity_rank (quick_status_label a)) := by
  constructor
  · intro ha
    interval_cases a <;> decide
  · intro hab hb
    interval_cases b <;> interval_cases a <;> decide

theorem quick_status_pure_monotone_witness :
    ((quick_status_label 2 = "🟡 PARTIAL") ↔ (2 ≤ 2 ∧ 2 < 4)) ∧
    severity_rank (quick_status_label 3) ≤ severity_rank (quick_status_label 2) :=
  ⟨((quick_status_pure_monotone 2 3).1 (by decide)).2.1,
   (quick_status_pure_monotone 2 3).2 (by decide) (by decide)⟩

/-- C2 counterexample: with exactly 2 of 4 services down and the container
count (3) below the expected count (4), the quick status string is
`🟡 PARTIAL`, not the CRITICAL class; and with the other analyzers at their
best levels (FAST performance, INFO logs, fully available network) the
overall status is `🟡 WARNING`, not `🔴 CRITICAL` — so the overall status is
not CRITICAL regardless of the other analyzers. -/
theorem two_down_containers_low_cex :
    (get_quick_status 2 3).status = "🟡 PARTIAL" ∧
    (get_quick_status 2 3).status ≠ "🔴 CRITICAL" ∧
    (analyze_system_health 2 3).health_level = "CRITICAL" ∧
    calculate_overall_status (analyze_system_health 2 3) { performance_level := "FAST" }
        { alert_level := some ("INFO"), entries_analyzed := 0, detected_patterns := [] }
        { has_error := false, http_availability := 100 } = "🟡 WARNING" := by
  have hnet : get_network_status { has_error := false, http_availability := 100 } = "EXCELLENT" := by
    simp only [get_network_status]
    norm_num
  refine ⟨by decide, by decide, by decide, ?_⟩
  simp only [calculate_overall_status, hnet]
  decide

/-- C2 amended: with exactly 2 of 4 services down and the running container
count below the expected count of 4, the quick status string is `🟡 PARTIAL`
(not CRITICAL), the derived health level is CRITICAL, and the overall status
is never `🟢 NORMAL` — it is WARNING or CRITICAL — regardless of the
performance, log, and network analyzer outputs (but it is not always
CRITICAL). -/
theorem two_down_containers_low_amended (running : Nat) (hrun : running < 4)
    (p : PerfData) (l : LogsData) (n : NetworkData) :
    (get_quick_status 2 running).status = "🟡 PARTIAL" ∧
    (analyze_system_health 2 running).health_level = "CRITICAL" ∧
    calculate_overall_status (analyze_system_health 2 running) p l n ≠ "🟢 NORMAL" := by
  have hscore : health_score (get_quick_status 2 running) = 15 := by
    simp [health_score, get_quick_status, quick_status_label, hrun]
  have hlevel : (analyze_system_health 2 running).health_level = "CRITICAL" := by
    simp [analyze_system_health, hscore, health_level]
  refine ⟨rfl, hlevel, ?_⟩
  simp only [calculate_overall_status, hlevel]
  have hw : status_weight ("CRITICAL") 2 = 4 := by decide
  rw [hw]
  split_ifs <;> first
    | decide
    | (exfalso; omega)

theorem two_down_containers_low_amended_witness :
    (get_quick_status 2 3).status = "🟡 PARTIAL" ∧
    (analyze_system_health 2 3).health_level = "CRITICAL" ∧
    calculate_overall_status (analyze_system_health 2 3) { performance_level := "FAST" }
        { alert_level := some ("INFO"), entries_analyzed := 0, detected_patterns := [] }
        { has_error := false, http_availability := 100 } ≠ "🟢 NORMAL" :=
  two_down_containers_low_amended 3 (by decide) { performance_level := "FAST" }
    { alert_level := some ("INFO"), entries_analyzed := 0, detected_patterns := [] }
    { has_error := false, http_availability := 100 }

/-- C3: the overall status and the recommendation list of the master summary
are deterministic functions of the four analyzer outputs: with identical
health, performance, log and network data, and the insight-engine output
varying arbitrarily, the overall status string and the recommendation list
(in order) are identical. -/
theorem master_summary_deterministic (h : HealthData) (p : PerfData)
    (l : LogsData) (n : NetworkData) (ai1 ai2 : InsightData) :
    (master_summary h p l n ai1).overall_status = (master_summary h p l n ai2).overall_status ∧
    (master_summary h p l n ai1).recommendations = (master_summary h p l n ai2).recommendations :=
  ⟨rfl, rfl⟩

/-- C7: the static insight fallback always produces at least one insight line
and a non-empty joined insight string, for every combination of health level,
performance level, log entry count, and detected-pattern set. -/
theorem static_insights_nonempty (health_lv performance_lv : String)
    (entries_analyzed : Nat) (detected_patterns : List String) :
    get_static_insights health_lv performance_lv entries_analyzed detected_patterns ≠ [] ∧
    static_insights_text health_lv performance_lv entries_analyzed detected_patterns ≠ "" := by
  obtain ⟨a, rest, heq, ha⟩ :=
    get_static_insights_head health_lv performance_lv entries_analyzed detected_patterns
  constructor
  · rw [heq]
    exact List.cons_ne_nil a rest
  · unfold static_insights_text
    rw [heq]
    exact join_sep_ne_empty _ _ _ ha

/-- C10: the recommendation generator always returns a non-empty list: the
logs branch contributes an entry whether or not any log entries were
observed. -/
theorem generate_recommendations_ne_nil (h : HealthData) (p : PerfData) (l : LogsData) :
    generate_recommendations h p l ≠ [] := by
  intro hc
  unfold generate_recommendations at hc
  simp only [List.append_eq_nil] at hc
  have h3 := hc.1.1.2
  revert h3
  split_ifs <;> simp

/-- C4 counterexample: a series exactly at the 1.3× boundary
(`[7,7,7,13,13,13]`, recent mean 13, overall mean 10) is not classified as
growth, and a series exactly at the 0.7× boundary (`[13,13,13,7,7,7]`) is
not classified as decline: the source compares with strict `>` and `<`, so
the boundary cases report no trend at all. -/
theorem analyze_trends_boundary_cex :
    analyze_trends [7,7,7,13,13,13] [] [] = [] ∧
    mean (last_n 3 [7,7,7,13,13,13]) = mean [7,7,7,13,13,13] * (13/10 : ℚ) ∧
    analyze_trends [13,13,13,7,7,7] [] [] = [] ∧
    mean (last_n 3 [13,13,13,7,7,7]) = mean [13,13,13,7,7,7] * (7/10 : ℚ) := by
  refine ⟨?_, ?_, ?_, ?_⟩ <;> norm_num [analyze_trends, mean, last_n]

/-- C4 amended: for every request-rate series with at least 3 samples, trend
detection reports growth exactly when the mean of the most recent 3 samples
is strictly greater than 1.3 times the full-window mean, and reports decline
exactly when growth is not reported and the recent mean is strictly less
than 0.7 times the full-window mean; series exactly at the 1.3× or 0.7×
boundary are classified as neither. -/
theorem analyze_trends_strict_thresholds (req err mem : List ℚ) (h3 : 3 ≤ req.length) :
    (Trend.growing ∈ analyze_trends req err mem ↔
      mean req * (13/10 : ℚ) < mean (last_n 3 req)) ∧
    (Trend.declining ∈ analyze_trends req err mem ↔
      (¬ mean req * (13/10 : ℚ) < mean (last_n 3 req)) ∧
        mean (last_n 3 req) < mean req * (7/10 : ℚ)) := by
  unfold analyze_trends
  rw [if_pos h3]
  constructor <;> (split_ifs <;> simp_all)

theorem analyze_trends_strict_thresholds_witness :
    Trend.growing ∈ analyze_trends [1,1,1,100,100,100] [] [] :=
  ((analyze_trends_strict_thresholds [1,1,1,100,100,100] [] [] (by norm_num)).1).mpr
    (by norm_num [mean, last_n])

/-- C6 counterexample: for a target configuration whose pingable category is
empty (a single HTTP target), the availability-percentage computation
divides by the zero category size and raises (modelled as `none`) instead of
yielding a fixed constant. -/
theorem network_empty_category_cex :
    network_summary_availability (["http://localhost:5000"]) (["google.com"])
      (fun _ => true) (fun _ => true) (fun _ => true) = none := by
  have hping : (["http://localhost:5000"] : List String).filter
      (fun t => !(starts_with_http t)) = [] := by decide
  simp only [network_summary_availability, hping, qdiv]
  norm_num

/-- C6 amended: with the analyzer's hard-coded target configuration no
category (pingable, HTTP, DNS) is empty — the category sizes are 2, 4 and 3
— so the availability-percentage computation always succeeds without
dividing by zero, whatever the probe outcomes, and yields
`reachable_count / category_total * 100` per category; a configuration with
an empty category instead raises a `ZeroDivisionError`. -/
theorem network_fixed_config_no_div_zero (ping_ok http_ok dns_ok : String → Bool) :
    network_summary_availability network_targets network_dns_hosts ping_ok http_ok dns_ok =
      some ((((network_targets.filter (fun t => !(starts_with_http t))).filter ping_ok).length : ℚ) / 2 * 100,
            (((network_targets.filter (fun t => starts_with_http t)).filter http_ok).length : ℚ) / 4 * 100,
            ((network_dns_hosts.filter dns_ok).length : ℚ) / 3 * 100) := by
  have hping : network_targets.filter (fun t => !(starts_with_http t)) =
      ["8.8.8.8", "1.1.1.1"] := by decide
  have hhttp : network_targets.filter (fun t => starts_with_http t) =
      ["http://localhost:5000", "http://localhost:9090", "http://localhost:3100",
       "http://localhost:3000"] := by decide
  simp only [network_summary_availability, qdiv, hping, hhttp, network_dns_hosts]
  norm_num

/-! ## Infix machinery for the log pattern analyzer -/

theorem infix_drop_while {p : Char → Bool} {c : Char} {s : List Char}
    (hc : p c = false) : ∀ t : List Char, (c :: s) <:+: t → (c :: s) <:+: t.dropWhile p := by
  intro t
  induction t with
  | nil =>
      intro h
      rw [List.infix_nil] at h
      simp at h
  | cons a t ih =>
      intro h
      rw [List.dropWhile_cons]
      by_cases hpa : p a
      · rw [if_pos hpa]
        rcases List.infix_cons_iff.mp h with hpre | hinf
        · exfalso
          rw [List.cons_prefix_cons] at hpre
          rw [← hpre.1] at hpa
          rw [hc] at hpa
          exact Bool.false_ne_true hpa
        · exact ih hinf
      · rw [if_neg hpa]
        exact h

theorem infix_py_strip {c d : Char} {mid t : List Char}
    (hc : py_is_space c = false) (hd : py_is_space d = false)
    (h : (c :: (mid ++ [d])) <:+: t) : (c :: (mid ++ [d])) <:+: py_strip t := by
  unfold py_strip
  have h1 : (c :: (mid ++ [d])) <:+: t.dropWhile py_is_space := infix_drop_while hc t h
  have hrev : (c :: (mid ++ [d])).reverse = d :: (mid.reverse ++ [c]) := by simp
  have hrev2 : (d :: (mid.reverse ++ [c])).reverse = c :: (mid ++ [d]) := by simp
  have h2 : (d :: (mid.reverse ++ [c])) <:+: (t.dropWhile py_is_space).reverse := by
    have h2a := List.reverse_infix.mpr h1
    rwa [hrev] at h2a
  have h3 := infix_drop_while hd _ h2
  have h4 := List.reverse_infix.mpr h3
  rwa [hrev2] at h4

theorem split_on_nl_ne_nil (t : List Char) : split_on_nl t ≠ [] := by
  cases t with
  | nil => simp [split_on_nl]
  | cons c cs =>
      cases h : split_on_nl cs
      all_goals simp [split_on_nl, h]
      split_ifs <;> simp

theorem headI_mem_of_ne_nil {l : List (List Char)} (h : l ≠ []) : l.headI ∈ l := by
  cases l with
  | nil => exact absurd rfl h
  | cons a r => exact List.mem_cons_self a r

theorem prefix_first_seg {s t : List Char} (hnl : ('\n') ∉ s) (h : s <+: t) :
    s <+: (split_on_nl t).headI := by
  induction s generalizing t with
  | nil => exact List.nil_prefix
  | cons a s ih =>
      cases t with
      | nil => exact absurd h (by simp)
      | cons b t2 =>
          rw [List.cons_prefix_cons] at h
          obtain ⟨rfl, hpre⟩ := h
          have ha : ¬ a = '\n' := fun he => hnl (he ▸ List.mem_cons_self a s)
          have hnl2 : ('\n') ∉ s := fun hm => hnl (List.mem_cons_of_mem a hm)
          cases hsp : split_on_nl t2 with
          | nil => exact absurd hsp (split_on_nl_ne_nil t2)
          | cons seg segs =>
              have ihh : s <+: seg := by
                have hh := ih hnl2 hpre
                rw [hsp] at hh
                exact hh
              simp only [split_on_nl, hsp]
              rw [if_neg ha]
              exact List.cons_prefix_cons.mpr ⟨rfl, ihh⟩

theorem exists_seg_of_infix {s t : List Char} (hnl : ('\n') ∉ s) (h : s <:+: t) :
    ∃ seg ∈ split_on_nl t, s <:+: seg := by
  induction t with
  | nil =>
      rw [List.infix_nil] at h
      subst h
      exact ⟨[], by simp [split_on_nl], ⟨[], [], rfl⟩⟩
  | cons c cs ih =>
      rcases List.infix_cons_iff.mp h with hpre | hinf
      · exact ⟨_, headI_mem_of_ne_nil (split_on_nl_ne_nil _),
          (prefix_first_seg hnl hpre).isInfix⟩
      · obtain ⟨seg, hmem, hseg⟩ := ih hinf
        cases hsp : split_on_nl cs with
        | nil => exact absurd hsp (split_on_nl_ne_nil cs)
        | cons seg0 segs =>
            rw [hsp] at hmem
            by_cases hcn : c = '\n'
            · refine ⟨seg, ?_, hseg⟩
              simp only [split_on_nl, hsp]
              rw [if_pos hcn]
              exact List.mem_cons_of_mem _ hmem
            · rcases List.mem_cons.mp hmem with rfl | hmem2
              · refine ⟨c :: seg, ?_, List.infix_cons hseg⟩
                simp only [split_on_nl, hsp]
                rw [if_neg hcn]
                exact List.mem_cons_self _ _
              · refine ⟨seg, ?_, hseg⟩
                simp only [split_on_nl, hsp]
                rw [if_neg hcn]
                exact List.mem_cons_of_mem _ hmem2

theorem dot_star_seg_of_split {a v b seg : List Char} (h : (a ++ (v ++ b)) <:+: seg) :
    dot_star_seg a b seg = true := by
  obtain ⟨u, w, rfl⟩ := h
  unfold dot_star_seg
  rw [List.any_eq_true]
  refine ⟨(a ++ (v ++ b)) ++ w, ?_, ?_⟩
  · rw [List.mem_tails]
    exact ⟨u, by simp⟩
  · rw [Bool.and_eq_true]
    constructor
    · rw [List.isPrefixOf_iff_prefix, List.append_assoc]
      exact List.prefix_append a _
    · rw [List.append_assoc, List.drop_left]
      unfold contains_sub
      rw [decide_eq_true_eq]
      exact List.infix_append v b w

theorem match_lit_of_infix {s hay : List Char} (h : s <:+: hay) :
    match_pat hay (Pat.lit s) = true := by
  unfold match_pat contains_sub
  rw [decide_eq_true_eq]
  exact h

theorem match_seq_of_infix {a v b hay : List Char} (hnl : ('\n') ∉ (a ++ (v ++ b)))
    (h : (a ++ (v ++ b)) <:+: hay) : match_pat hay (Pat.seq a b) = true := by
  obtain ⟨seg, hmem, hseg⟩ := exists_seg_of_infix hnl h
  unfold match_pat
  rw [List.any_eq_true]
  exact ⟨seg, hmem, dot_star_seg_of_split hseg⟩

theorem err_line_core (p s : List Char) :
    py_strip (p ++ (err_line ++ s)) ≠ [] ∧
    0 < count_level (String.toList ("ERROR")) (p ++ (err_line ++ s)) ∧
    ("database_errors") ∈ detected_patterns_of (p ++ (err_line ++ s)) ∧
    ("application_errors") ∈ detected_patterns_of (p ++ (err_line ++ s)) := by
  have htext : err_line <:+: (p ++ (err_line ++ s)) := ⟨p, s, by simp⟩
  have hshape : err_line = 'E' :: ((String.toList ("RROR: connection faile")) ++ ['d']) := by decide
  have hstrip : err_line <:+: py_strip (p ++ (err_line ++ s)) := by
    rw [hshape] at htext ⊢
    exact infix_py_strip (by decide) (by decide) htext
  have hne : py_strip (p ++ (err_line ++ s)) ≠ [] := by
    intro h0
    rw [h0, List.infix_nil] at hstrip
    exact absurd hstrip (by decide)
  have herr5 : (String.toList ("ERROR")) <:+: py_strip (p ++ (err_line ++ s)) :=
    List.IsInfix.trans (by decide) hstrip
  have hcount : 0 < count_level (String.toList ("ERROR")) (p ++ (err_line ++ s)) := by
    obtain ⟨seg, hmem, hseg⟩ := exists_seg_of_infix (by decide) herr5
    unfold count_level
    rw [List.countP_pos_iff]
    refine ⟨seg, ?_, ?_⟩
    · unfold log_lines
      exact hmem
    · unfold contains_sub
      rw [decide_eq_true_eq]
      exact hseg
  have hlowinf : (String.toList ("error: connection failed")) <:+:
      lower_list (p ++ (err_line ++ s)) := by
    unfold lower_list
    rw [List.map_append, List.map_append]
    have hmap : List.map Char.toLower err_line = String.toList ("error: connection failed") := by
      decide
    rw [hmap]
    exact ⟨List.map Char.toLower p, List.map Char.toLower s, by simp⟩
  have hdb : match_pat (lower_list (p ++ (err_line ++ s)))
      (Pat.seq (String.toList ("connection")) (String.toList ("failed"))) = true := by
    apply match_seq_of_infix (v := String.toList (" ")) (by decide)
    have heq : (String.toList ("connection")) ++ ((String.toList (" ")) ++ (String.toList ("failed")))
        = String.toList ("connection failed") := by decide
    rw [heq]
    exact List.IsInfix.trans (by decide) hlowinf
  have happ : match_pat (lower_list (p ++ (err_line ++ s)))
      (Pat.lit (String.toList ("error"))) = true := by
    apply match_lit_of_infix
    exact List.IsInfix.trans (by decide) hlowinf
  refine ⟨hne, hcount, ?_, ?_⟩
  · unfold detected_patterns_of
    rw [List.mem_map]
    refine ⟨(("database_errors"),
      [Pat.seq (String.toList ("connection")) (String.toList ("failed")),
       Pat.lit (String.toList ("timeout")), Pat.lit (String.toList ("deadlock"))]), ?_, rfl⟩
    rw [List.mem_filter]
    refine ⟨by simp [pattern_table], ?_⟩
    rw [List.any_eq_true]
    exact ⟨_, List.mem_cons_self _ _, hdb⟩
  · unfold detected_patterns_of
    rw [List.mem_map]
    refine ⟨(("application_errors"),
      [Pat.lit (String.toList ("exception")), Pat.lit (String.toList ("error")),
       Pat.lit (String.toList ("failed"))]), ?_, rfl⟩
    rw [List.mem_filter]
    refine ⟨by simp [pattern_table], ?_⟩
    rw [List.any_eq_true]
    refine ⟨Pat.lit (String.toList ("error")), by simp, happ⟩

/-- C5 counterexample: `analyze_with_patterns` stamps the result with
`datetime.now()`, so two runs of the same text at different instants yield
result records that differ (in the timestamp field) — the records are not
identical in all fields. -/
theorem analyze_with_patterns_timestamp_cex :
    analyze_with_patterns ("2025-01-01T00:00:00") (String.toList ("log line")) ≠
      analyze_with_patterns ("2025-01-01T00:00:01") (String.toList ("log line")) := by
  decide

/-- C5 amended: the log pattern analysis is idempotent and deterministic in
every field except the wall-clock timestamp: two analyses of the same text
agree on total entries, all per-level counts, the detected-pattern list, the
alert level and the summary; and analyzing empty or whitespace-only text
(empty after `strip`) yields total entries 0, all per-level counts 0, an
empty detected-pattern list and alert level INFO, without raising. -/
theorem analyze_with_patterns_core_deterministic (t1 t2 : String) (text : List Char) :
    ((analyze_with_patterns t1 text).total_entries = (analyze_with_patterns t2 text).total_entries ∧
     (analyze_with_patterns t1 text).info_count = (analyze_with_patterns t2 text).info_count ∧
     (analyze_with_patterns t1 text).warning_count = (analyze_with_patterns t2 text).warning_count ∧
     (analyze_with_patterns t1 text).error_count = (analyze_with_patterns t2 text).error_count ∧
     (analyze_with_patterns t1 text).detected_patterns = (analyze_with_patterns t2 text).detected_patterns ∧
     (analyze_with_patterns t1 text).alert_level = (analyze_with_patterns t2 text).alert_level ∧
     (analyze_with_patterns t1 text).summary = (analyze_with_patterns t2 text).summary) ∧
    (py_strip text = [] →
      analyze_with_patterns t1 text =
        { timestamp := t1, total_entries := 0, info_count := 0, warning_count := 0,
          error_count := 0, detected_patterns := [], alert_level := "INFO",
          summary := "No logs available for analysis" }) := by
  constructor
  · unfold analyze_with_patterns
    split_ifs <;> exact ⟨rfl, rfl, rfl, rfl, rfl, rfl, rfl⟩
  · intro hw
    unfold analyze_with_patterns
    rw [if_pos hw]

theorem analyze_with_patterns_core_deterministic_witness :
    analyze_with_patterns ("T") (String.toList ("  \x0B ")) =
      { timestamp := "T", total_entries := 0, info_count := 0, warning_count := 0,
        error_count := 0, detected_patterns := [], alert_level := "INFO",
        summary := "No logs available for analysis" } :=
  (analyze_with_patterns_core_deterministic ("T") ("U") (String.toList ("  \x0B "))).2 (by decide)

/-- C8: for every log text containing the line `"ERROR: connection failed"`
(any prefix and suffix around it), the pattern analysis detects both the
`database_errors` group and the `application_errors` group, and the alert
level is ERROR. -/
theorem analyze_detects_error_connection_failed (now : String) (p s : List Char) :
    ("database_errors") ∈ (analyze_with_patterns now (p ++ (err_line ++ s))).detected_patterns ∧
    ("application_errors") ∈ (analyze_with_patterns now (p ++ (err_line ++ s))).detected_patterns ∧
    (analyze_with_patterns now (p ++ (err_line ++ s))).alert_level = "ERROR" := by
  obtain ⟨hne, hcount, hdb, happ⟩ := err_line_core p s
  have halert : alert_level_of (p ++ (err_line ++ s)) = "ERROR" := by
    unfold alert_level_of
    rw [if_pos hcount]
  unfold analyze_with_patterns
  rw [if_neg hne]
  exact ⟨hdb, happ, halert⟩

/-- C9 counterexample: an unreachable log backend makes `get_loki_logs`
return an error dictionary, and `analyze_logs_patterns` then reports alert
level UNKNOWN (weight 1, the same as INFO), not ERROR — with every other
analyzer at its best level the overall status stays `🟢 NORMAL`, identical
to the status with clean INFO logs, so an unreachable log backend alone
does not raise the weighted overall severity. -/
theorem logs_unreachable_backend_cex :
    (analyze_logs_patterns ("t")
        (LogFetch.fetched (Except.error ("Network error: connection refused"))) []).alert_level
      = some ("UNKNOWN") ∧
    calculate_overall_status { health_score := 100, health_level := "EXCELLENT" }
        { performance_level := "FAST" }
        { alert_level := some ("UNKNOWN"), entries_analyzed := 0, detected_patterns := [] }
        { has_error := false, http_availability := 100 } = "🟢 NORMAL" ∧
    calculate_overall_status { health_score := 100, health_level := "EXCELLENT" }
        { performance_level := "FAST" }
        { alert_level := some ("INFO"), entries_analyzed := 0, detected_patterns := [] }
        { has_error := false, http_availability := 100 } = "🟢 NORMAL" := by
  have hnet : get_network_status { has_error := false, http_availability := 100 } = "EXCELLENT" := by
    simp only [get_network_status]
    norm_num
  refine ⟨rfl, ?_, ?_⟩ <;> (simp only [calculate_overall_status, hnet]; decide)

/-- C9 amended: when an exception escapes the log-analysis step,
`analyze_logs_patterns` reports alert level ERROR, which the aggregator
weighs at 3 — the same weight as logs genuinely containing error lines; but
an unreachable log backend, whose fetch returns an error dictionary, yields
alert level UNKNOWN with weight 1 — equal to INFO's weight — so the
unreachable backend alone does not change the weighted overall status. -/
theorem logs_failure_weight_amended (now msg : String) (alt : List (List Char)) :
    (analyze_logs_patterns now (LogFetch.raised msg) alt).alert_level = some ("ERROR") ∧
    status_weight ("ERROR") 1 = 3 ∧
    (∀ p s : List Char,
      status_weight ((analyze_with_patterns now (p ++ (err_line ++ s))).alert_level) 1 = 3) ∧
    (analyze_logs_patterns now (LogFetch.fetched (Except.error msg)) alt).alert_level
      = some ("UNKNOWN") ∧
    status_weight ("UNKNOWN") 1 = status_weight ("INFO") 1 ∧
    (∀ (h : HealthData) (p : PerfData) (n : NetworkData) (e : Nat) (dp : List String),
      calculate_overall_status h p
          { alert_level := some ("UNKNOWN"), entries_analyzed := e, detected_patterns := dp } n =
        calculate_overall_status h p
          { alert_level := some ("INFO"), entries_analyzed := e, detected_patterns := dp } n) := by
  refine ⟨rfl, by decide, ?_, rfl, by decide, ?_⟩
  · intro p s
    obtain ⟨hne, hcount, hdb, happ⟩ := err_line_core p s
    have halert : alert_level_of (p ++ (err_line ++ s)) = "ERROR" := by
      unfold alert_level_of
      rw [if_pos hcount]
    unfold analyze_with_patterns
    rw [if_neg hne, halert]
    show status_weight ("ERROR") 1 = 3
    decide
  · intro h p n e dp
    simp only [calculate_overall_status]
    have hw : status_weight ((some ("UNKNOWN") : Option String).getD ("INFO")) 1 =
        status_weight ((some ("INFO") : Option String).getD ("INFO")) 1 := by decide
    rw [hw]
